import Mathlib

/-!
Verification of the provider-dispatch layer of the `tganalys` repository:
a shallow embedding of `src/transcription_client.py` and `src/ai_client.py`.

HTTP requests and SDK calls are modelled by their observable outcomes:
`Except String α` where `.error e` stands for a raised exception
(network fault, JSON decode failure, ...) and `.ok v` for a response the
code goes on to inspect.  Python values that are "a string or `None`" are
modelled as `Option String`; a dictionary key that may be absent is an
outer `Option` around the stored value.
-/

namespace Tganalys

/-- Python truthiness of a string-or-`None` value: `None` and the empty
string are falsy, every other string is truthy. -/
def truthy : Option String → Bool
  | none => false
  | some s => !s.isEmpty

/-- Python `str()` / f-string rendering of a string-or-`None` value
(`None` renders as `"None"`). -/
def pyStr : Option String → String
  | none => "None"
  | some s => s

/-- Python `str.lower()`, modelled character-wise on the underlying
character list. -/
def pyLower (s : String) : String := ⟨s.data.map Char.toLower⟩

/-- Python `str.strip()`: drop whitespace from both ends. -/
def pyStrip (s : String) : String :=
  ⟨((s.data.dropWhile Char.isWhitespace).reverse.dropWhile Char.isWhitespace).reverse⟩

/-! ## Transcription dispatcher (`src/transcription_client.py`) -/

/-- `_transcribe_whisper_local` (lines 56-77): one POST to the local
Whisper server.  A raised exception is caught and yields `None`; an HTTP
200 yields the whitespace-trimmed body; any other status yields `None`. -/
def transcribeWhisperLocal (resp : Except String (Nat × String)) : Option String :=
  match resp with
  | .error _ => none
  | .ok (status, body) => if status = 200 then some (pyStrip body) else none

/-- Observable request/suspension events of the AssemblyAI backend. -/
inductive Ev where
  | upload
  | submit
  | poll (i : Nat)
  | sleep (secs : Nat)
  deriving DecidableEq, Repr

/-- The JSON body of one AssemblyAI polling response, after the two
dictionary reads the code performs: `result.get("status")` (key may be
absent, hence `Option`) and `result.get("text", "")` (defaulted). -/
structure PollBody where
  status : Option String
  text : String
  deriving DecidableEq, Repr

/-- The polling loop of `_transcribe_assemblyai` (lines 149-171), fuelled
by the remaining attempt count (`max_attempts = 60` at the call site) and
indexed by the current attempt number.  Each iteration sleeps 2 seconds,
then issues one GET.  Result: `some r` when the loop body returns `r`
early (`completed`, `error`, or a raised exception that the outer handler
turns into `None`); `none` when the fuel is exhausted without a terminal
status.  The second component is the trace of events performed. -/
def pollLoop (polls : Nat → Except String (Nat × PollBody)) :
    Nat → Nat → Option (Option String) × List Ev
  | 0, _ => (none, [])
  | fuel + 1, i =>
    match polls i with
    | .error _ => (some none, [.sleep 2, .poll i])
    | .ok (st, body) =>
      if st ≠ 200 then
        let r := pollLoop polls fuel (i + 1)
        (r.1, .sleep 2 :: .poll i :: r.2)
      else if body.status = some "completed" then
        (some (some (pyStrip body.text)), [.sleep 2, .poll i])
      else if body.status = some "error" then
        (some none, [.sleep 2, .poll i])
      else
        let r := pollLoop polls fuel (i + 1)
        (r.1, .sleep 2 :: .poll i :: r.2)

/-- `_transcribe_assemblyai` (lines 103-178): guard on the API key, then
upload, submit, poll.  `uploadResp` carries the status code and the
`upload_url` field of the JSON body (`none` when absent); `submitResp`
likewise carries the status code and the `id` field.  Exceptions anywhere
inside the `try` block are caught and yield `None`.  The returned trace
records which requests were issued and which sleeps were performed. -/
def transcribeAssemblyai
    (key : Option String)
    (uploadResp : Except String (Nat × Option String))
    (submitResp : Except String (Nat × Option String))
    (polls : Nat → Except String (Nat × PollBody)) :
    Option String × List Ev :=
  if !truthy key then (none, [])
  else
    match uploadResp with
    | .error _ => (none, [Ev.upload])
    | .ok (st, url) =>
      if st ≠ 200 then (none, [Ev.upload])
      else if !truthy url then (none, [Ev.upload])
      else
        match submitResp with
        | .error _ => (none, [Ev.upload, Ev.submit])
        | .ok (st2, tid) =>
          if st2 ≠ 200 then (none, [Ev.upload, Ev.submit])
          else if !truthy tid then (none, [Ev.upload, Ev.submit])
          else
            let r := pollLoop polls 60 0
            (r.1.getD none, Ev.upload :: Ev.submit :: r.2)

/-- `transcribe` (lines 34-54): dispatch on the configured provider
(`"openai"`, `"assemblyai"`, anything else falls through to the local
Whisper backend), with a `try`/`except` that converts any exception
raised in the chosen backend path into a `None` return. -/
def transcribe (provider : String)
    (openaiBackend assemblyaiBackend whisperBackend : Except String (Option String)) :
    Option String :=
  let chosen :=
    if provider = "openai" then openaiBackend
    else if provider = "assemblyai" then assemblyaiBackend
    else whisperBackend
  match chosen with
  | .ok r => r
  | .error _ => none

/-- The state built by `TranscriptionClient.__init__` (lines 17-32). -/
structure TranscriptionClientState where
  provider : String
  whisperUrl : String
  openaiClientSet : Bool
  assemblyaiKey : Option String
  deriving DecidableEq, Repr

/-- `TranscriptionClient.__init__` (lines 17-32): reads environment
values (each `Option String`, `none` when unset), lowercases the provider
and stores the configuration.  There is no `raise` anywhere in its body,
so it always succeeds; the `Except` return type records that fact
explicitly for comparison with `AIClient.__init__`. -/
def transcriptionClientInit (tProvider wUrl oKey aKey : Option String) :
    Except String TranscriptionClientState :=
  .ok { provider := pyLower (tProvider.getD "whisper_local"),
        whisperUrl := wUrl.getD "http://whisper:9000",
        openaiClientSet := truthy oKey,
        assemblyaiKey := aKey }

/-! ## Text-analysis dispatcher (`src/ai_client.py`) -/

/-- The state built by `AIClient.__init__` (lines 25-52). -/
structure AIClientState where
  provider : String
  model : String
  deriving DecidableEq, Repr

/-- `AIClient.__init__` (lines 25-52): lowercases the configured provider,
resolves the client/model pair for the three recognized providers, and
raises `ValueError` (modelled `.error`) for any other value. -/
def aiClientInit (aProvider openrouterModel : String) : Except String AIClientState :=
  let provider := pyLower aProvider
  if provider = "openai" then .ok { provider := provider, model := "gpt-4o-mini" }
  else if provider = "openrouter" then .ok { provider := provider, model := openrouterModel }
  else if provider = "agentrouter" then .ok { provider := provider, model := "auto" }
  else .error ("Unsupported AI provider: " ++ provider)

/-- `chat_completion` (lines 54-99): the backend call either yields the
response content or raises; a raised exception is caught and converted
into the error string `f"Ошибка анализа (provider): detail"`.  (The extra
OpenRouter headers only shape the outgoing request, not the return
value.) -/
def chat_completion (provider : String) (backend : Except String String) : String :=
  match backend with
  | .ok result => result
  | .error e => "Ошибка анализа (" ++ provider ++ "): " ++ e

/-- A message record (external input): a mapping whose keys
`message_date`, `message_text` and `transcription` may each be absent
(outer `Option`) or present with a string-or-`None` value. -/
structure MsgRecord where
  message_date : Option (Option String) := none
  message_text : Option (Option String) := none
  transcription : Option (Option String) := none
  deriving DecidableEq, Repr

/-- The inclusion filter of `analyze_messages` / `custom_analysis`
(lines 121, 155): `msg.get('message_text') or msg.get('transcription')`. -/
def usable (m : MsgRecord) : Bool :=
  truthy (m.message_text.getD none) || truthy (m.transcription.getD none)

/-- One formatted line of `analyze_messages` (line 119):
`f"[date] text"` where `date = msg.get('message_date', 'Unknown')` and
`text = msg.get('message_text', msg.get('transcription', ''))`. -/
def analyzeLine (m : MsgRecord) : String :=
  "[" ++ pyStr (m.message_date.getD (some "Unknown")) ++ "] "
    ++ pyStr (m.message_text.getD (m.transcription.getD (some "")))

/-- One formatted line of `custom_analysis` (line 153). -/
def customLine (m : MsgRecord) : String :=
  pyStr (m.message_text.getD (m.transcription.getD (some "")))

/-- The fixed "no messages" sentinel string (lines 125, 159). -/
def noMessagesText : String := "Нет сообщений для анализа"

/-- Control-flow outcome of `analyze_messages` / `custom_analysis`: the
function either returns the sentinel without any network call, or invokes
`chat_completion` with the given system prompt and user message. -/
inductive AnalysisStep where
  | noMessages
  | call (system_prompt user_message : String)
  deriving DecidableEq, Repr

/-- The prompt templates of `analyze_messages` (lines 128-133). -/
def summaryPrompt : String :=
  "Создай краткое резюме этой переписки. Выдели основные темы и ключевые моменты."

/-- See `summaryPrompt`. -/
def insightsPrompt : String :=
  "Проанализируй эту переписку и выдели ключевые инсайты, важные идеи и выводы."

/-- See `summaryPrompt`. -/
def topicsPrompt : String :=
  "Определи основные темы, которые обсуждаются в этой переписке. Сгруппируй их по категориям."

/-- See `summaryPrompt`. -/
def sentimentPrompt : String :=
  "Проанализируй тональность этой переписки. Определи общее настроение и эмоциональную окраску."

/-- `prompts.get(analysis_type, prompts["summary"])` (line 135). -/
def prompts_get (analysis_type : String) : String :=
  if analysis_type = "summary" then summaryPrompt
  else if analysis_type = "insights" then insightsPrompt
  else if analysis_type = "topics" then topicsPrompt
  else if analysis_type = "sentiment" then sentimentPrompt
  else summaryPrompt

/-- `analyze_messages` (lines 106-138) up to the network boundary. -/
def analyze_messages (messages : List MsgRecord) (analysis_type : String) : AnalysisStep :=
  let messages_text := String.intercalate "\n" ((messages.filter usable).map analyzeLine)
  if messages_text.isEmpty then .noMessages
  else .call (prompts_get analysis_type) ("Переписка:\n\n" ++ messages_text)

/-- The fixed generic system prompt of `custom_analysis` (line 161). -/
def customSystemPrompt : String :=
  "Ты помощник для анализа переписок. Отвечай на вопросы пользователя на основе предоставленных сообщений."

/-- `custom_analysis` (lines 141-164) up to the network boundary. -/
def custom_analysis (messages : List MsgRecord) (custom_prompt : String) : AnalysisStep :=
  let messages_text := String.intercalate "\n" ((messages.filter usable).map customLine)
  if messages_text.isEmpty then .noMessages
  else .call customSystemPrompt
    ("Переписка:\n\n" ++ messages_text ++ "\n\nВопрос: " ++ custom_prompt)

/-- Running an analysis step against a chat backend: the sentinel is
returned as-is, a call is forwarded. -/
def runAnalysis (chat : String → String → String) : AnalysisStep → String
  | .noMessages => noMessagesText
  | .call sp um => chat sp um

/-! ## Helper notions for the polling claims -/

/-- A polling response that is neither a terminal status nor a raised
exception: either a non-200 HTTP status, or a 200 whose job status is
neither `"completed"` nor `"error"` (e.g. `"queued"`, `"processing"`, or
a missing status field). -/
def nonterminalResp (p : Except String (Nat × PollBody)) : Prop :=
  ∃ st b, p = .ok (st, b) ∧
    (st ≠ 200 ∨ (b.status ≠ some "completed" ∧ b.status ≠ some "error"))

/-- The event trace of a polling loop that never sees a terminal status:
one 2-second sleep and one GET per attempt. -/
def timeoutTrace : Nat → Nat → List Ev
  | 0, _ => []
  | fuel + 1, i => .sleep 2 :: .poll i :: timeoutTrace fuel (i + 1)

/-- When every polling response is non-terminal, the loop exhausts its
fuel, produces no early return, and performs exactly one sleep and one
poll per attempt. -/
theorem pollLoop_timeout (polls : Nat → Except String (Nat × PollBody))
    (h : ∀ j, nonterminalResp (polls j)) :
    ∀ fuel i, pollLoop polls fuel i = (none, timeoutTrace fuel i) := by
  intro fuel
  induction fuel with
  | zero => intro i; rfl
  | succ n ih =>
    intro i
    obtain ⟨st, b, hp, hcase⟩ := h i
    rcases hcase with hne | ⟨hnc, hne2⟩
    · simp [pollLoop, hp, hne, timeoutTrace, ih]
    · by_cases h200 : st = 200
      · subst h200
        simp [pollLoop, hp, hnc, hne2, timeoutTrace, ih]
      · simp [pollLoop, hp, h200, timeoutTrace, ih]

/-! ## Claims -/

/-- C8: the local Whisper backend returns the whitespace-trimmed response
body whenever the HTTP status is 200 (body "hello world" yields
"hello world"), and returns `None` for any non-200 status. -/
theorem whisperLocal_status_dichotomy :
    (∀ body : String, transcribeWhisperLocal (.ok (200, body)) = some (pyStrip body)) ∧
    (∀ (st : Nat) (body : String), st ≠ 200 → transcribeWhisperLocal (.ok (st, body)) = none) ∧
    transcribeWhisperLocal (.ok (200, "hello world")) = some "hello world" := by
  refine ⟨fun body => by simp [transcribeWhisperLocal],
    fun st body h => by simp [transcribeWhisperLocal, h], rfl⟩

/-- Witness for C8: the non-200 branch at status 500. -/
theorem whisperLocal_status_dichotomy_witness :
    transcribeWhisperLocal (.ok (500, "internal server error")) = none :=
  whisperLocal_status_dichotomy.2.1 500 "internal server error" (by decide)

/-- C4: any exception raised in the chosen backend path of `transcribe`
is caught and converted into a `None` return, for every provider. -/
theorem transcribe_exception_to_none :
    ∀ (provider e : String) (o a w : Except String (Option String)),
      ((provider = "openai" ∧ o = .error e) ∨
       (provider = "assemblyai" ∧ a = .error e) ∨
       (provider ≠ "openai" ∧ provider ≠ "assemblyai" ∧ w = .error e)) →
      transcribe provider o a w = none := by
  rintro provider e o a w (⟨hp, ho⟩ | ⟨hp, ha⟩ | ⟨hp1, hp2, hw⟩)
  · subst hp ho; rfl
  · subst hp ha; rfl
  · simp [transcribe, hp1, hp2, hw]

/-- Witness for C4: the default (local Whisper) path with a raised
exception yields `None`. -/
theorem transcribe_exception_to_none_witness :
    transcribe "whisper_local" (.ok (some "x")) (.ok none) (.error "connection refused") = none :=
  transcribe_exception_to_none "whisper_local" "connection refused" _ _ _
    (Or.inr (Or.inr ⟨by decide, by decide, rfl⟩))

/-- C5: on a backend failure, `chat_completion` returns a string that
contains both the configured provider name and the failure detail, never
propagating the exception. -/
theorem chatCompletion_failure_embeds_provider_and_detail :
    ∀ provider e : String,
      (∃ a b, chat_completion provider (.error e) = a ++ provider ++ b) ∧
      (∃ c d, chat_completion provider (.error e) = c ++ e ++ d) := by
  intro provider e
  constructor
  · exact ⟨"Ошибка анализа (", "): " ++ e, by
      simp [chat_completion, String.append_assoc]⟩
  · exact ⟨"Ошибка анализа (" ++ provider ++ "): ", "", by
      simp [chat_completion, String.append_assoc]⟩

/-- C10 (confirming the implicit claim about `dict.get` semantics): a
record whose `message_text` key is present with a falsy (empty or null)
value while its `transcription` is truthy passes the inclusion filter,
yet its formatted line carries the rendered `message_text` value, not the
transcription; the transcription value never influences the line once the
`message_text` key is present, and is used (with default `""`) exactly
when that key is absent. -/
theorem transcription_used_only_when_text_key_absent :
    ∀ (d : Option (Option String)) (v tv : Option String),
      truthy v = false → truthy tv = true →
      usable ⟨d, some v, some tv⟩ = true ∧
      analyzeLine ⟨d, some v, some tv⟩ =
        "[" ++ pyStr (d.getD (some "Unknown")) ++ "] " ++ pyStr v ∧
      customLine ⟨d, some v, some tv⟩ = pyStr v ∧
      (∀ tr : Option (Option String),
        analyzeLine ⟨d, some v, tr⟩ = analyzeLine ⟨d, some v, some tv⟩ ∧
        customLine ⟨d, some v, tr⟩ = customLine ⟨d, some v, some tv⟩) ∧
      (∀ tr : Option String, customLine ⟨d, none, some tr⟩ = pyStr tr) := by
  intro d v tv hv htv
  refine ⟨?_, rfl, rfl, fun tr => ⟨rfl, rfl⟩, fun tr => rfl⟩
  simp [usable, hv, htv]

/-- Witness for C10: empty-string `message_text` alongside a non-empty
transcription. -/
theorem transcription_used_only_when_text_key_absent_witness :
    usable ⟨none, some (some ""), some (some "voice note")⟩ = true ∧
    analyzeLine ⟨none, some (some ""), some (some "voice note")⟩ =
      "[" ++ pyStr ((none : Option (Option String)).getD (some "Unknown")) ++ "] "
        ++ pyStr (some "") :=
  ⟨(transcription_used_only_when_text_key_absent none (some "") (some "voice note")
      (by decide) (by decide)).1,
   (transcription_used_only_when_text_key_absent none (some "") (some "voice note")
      (by decide) (by decide)).2.1⟩

/-- Counterexample to C9: `TranscriptionClient.__init__` succeeds on an
unrecognized provider string — an instance with provider `"bogus"` is
created, so construction does not fail with a configuration error. -/
theorem transcription_init_accepts_unrecognized :
    transcriptionClientInit (some "bogus") none none none =
      .ok { provider := "bogus", whisperUrl := "http://whisper:9000",
            openaiClientSet := false, assemblyaiKey := none } := by
  rfl

/-- C9 amended: `AIClient.__init__` fails with a configuration error on
any unrecognized provider and succeeds on the three recognized ones,
while `TranscriptionClient.__init__` succeeds on every provider string. -/
theorem provider_validation_amended :
    (∀ p m : String, pyLower p ≠ "openai" → pyLower p ≠ "openrouter" →
      pyLower p ≠ "agentrouter" →
      aiClientInit p m = .error ("Unsupported AI provider: " ++ pyLower p)) ∧
    (∀ p m : String,
      (pyLower p = "openai" ∨ pyLower p = "openrouter" ∨ pyLower p = "agentrouter") →
      ∃ st, aiClientInit p m = .ok st) ∧
    (∀ tp wu ok ak, ∃ st, transcriptionClientInit tp wu ok ak = .ok st) := by
  refine ⟨?_, ?_, fun tp wu ok ak => ⟨_, rfl⟩⟩
  · intro p m h1 h2 h3
    simp [aiClientInit, h1, h2, h3]
  · rintro p m (h | h | h)
    · exact ⟨{ provider := pyLower p, model := "gpt-4o-mini" }, by simp [aiClientInit, h]⟩
    · exact ⟨{ provider := pyLower p, model := m }, by simp [aiClientInit, h]⟩
    · exact ⟨{ provider := pyLower p, model := "auto" }, by simp [aiClientInit, h]⟩

/-- Witness for the amended C9: an unrecognized AI provider is rejected. -/
theorem provider_validation_amended_witness :
    aiClientInit "MyLLM" "some-model" =
      .error ("Unsupported AI provider: " ++ pyLower "MyLLM") :=
  provider_validation_amended.1 "MyLLM" "some-model" (by decide) (by decide) (by decide)

/-- C1: each polling iteration has exactly three outcomes — job status
`"completed"` returns the whitespace-trimmed transcript text immediately,
job status `"error"` returns `None` immediately, and any other status or
a non-200 polling response continues the loop with the next iteration. -/
theorem pollLoop_iteration_trichotomy :
    ∀ (polls : Nat → Except String (Nat × PollBody)) (fuel i st : Nat) (b : PollBody),
      polls i = .ok (st, b) →
      ((st = 200 → b.status = some "completed" →
          pollLoop polls (fuel + 1) i =
            (some (some (pyStrip b.text)), [.sleep 2, .poll i])) ∧
       (st = 200 → b.status = some "error" →
          pollLoop polls (fuel + 1) i = (some none, [.sleep 2, .poll i])) ∧
       (st ≠ 200 ∨ (b.status ≠ some "completed" ∧ b.status ≠ some "error") →
          pollLoop polls (fuel + 1) i =
            ((pollLoop polls fuel (i + 1)).1,
              .sleep 2 :: .poll i :: (pollLoop polls fuel (i + 1)).2))) := by
  intro polls fuel i st b h
  refine ⟨?_, ?_, ?_⟩
  · intro h200 hc
    subst h200
    simp [pollLoop, h, hc]
  · intro h200 he
    subst h200
    simp [pollLoop, h, he]
  · rintro (hne | ⟨hnc, hne2⟩)
    · simp [pollLoop, h, hne]
    · by_cases h200 : st = 200
      · subst h200
        simp [pollLoop, h, hnc, hne2]
      · simp [pollLoop, h, h200]

/-- Witness for C1: the three outcomes at concrete polling responses. -/
theorem pollLoop_iteration_trichotomy_witness :
    pollLoop (fun _ => .ok (200, ⟨some "completed", " done "⟩)) 1 0 =
      (some (some (pyStrip " done ")), [.sleep 2, .poll 0]) ∧
    pollLoop (fun _ => .ok (200, ⟨some "error", ""⟩)) 1 0 =
      (some none, [.sleep 2, .poll 0]) ∧
    pollLoop (fun _ => .ok (503, ⟨none, ""⟩)) 1 0 =
      ((pollLoop (fun _ => .ok (503, ⟨none, ""⟩)) 0 1).1,
        .sleep 2 :: .poll 0 :: (pollLoop (fun _ => .ok (503, ⟨none, ""⟩)) 0 1).2) :=
  ⟨(pollLoop_iteration_trichotomy (fun _ => .ok (200, ⟨some "completed", " done "⟩))
      0 0 200 ⟨some "completed", " done "⟩ rfl).1 rfl rfl,
   (pollLoop_iteration_trichotomy (fun _ => .ok (200, ⟨some "error", ""⟩))
      0 0 200 ⟨some "error", ""⟩ rfl).2.1 rfl rfl,
   (pollLoop_iteration_trichotomy (fun _ => .ok (503, ⟨none, ""⟩))
      0 0 503 ⟨none, ""⟩ rfl).2.2 (Or.inl (by decide))⟩

/-- C2: when no iteration ever observes a terminal status, the AssemblyAI
backend performs exactly 60 polling iterations, each preceded by one
2-second sleep, and then returns `None`. -/
theorem assemblyai_timeout_after_60 :
    ∀ (k u tid : String) (polls : Nat → Except String (Nat × PollBody)),
      k ≠ "" → u ≠ "" → tid ≠ "" →
      (∀ j, nonterminalResp (polls j)) →
      transcribeAssemblyai (some k) (.ok (200, some u)) (.ok (200, some tid)) polls =
        (none, Ev.upload :: Ev.submit :: timeoutTrace 60 0) ∧
      ((timeoutTrace 60 0).filter
        (fun e => match e with | Ev.poll _ => true | _ => false)).length = 60 ∧
      (timeoutTrace 60 0).filter
        (fun e => match e with | Ev.sleep _ => true | _ => false) =
          List.replicate 60 (Ev.sleep 2) := by
  intro k u tid polls hk hu ht hnt
  refine ⟨?_, by decide, by decide⟩
  have hloop := pollLoop_timeout polls hnt 60 0
  simp [transcribeAssemblyai, truthy, String.isEmpty_iff, hk, hu, ht, hloop]

/-- Witness for C2: a server that always answers `"processing"`. -/
theorem assemblyai_timeout_after_60_witness :
    transcribeAssemblyai (some "KEY") (.ok (200, some "URL")) (.ok (200, some "ID"))
        (fun _ => .ok (200, ⟨some "processing", ""⟩)) =
      (none, Ev.upload :: Ev.submit :: timeoutTrace 60 0) :=
  (assemblyai_timeout_after_60 "KEY" "URL" "ID" _ (by decide) (by decide) (by decide)
    (fun j => ⟨200, ⟨some "processing", ""⟩, rfl, Or.inr ⟨by decide, by decide⟩⟩)).1

/-- C3: an upload-phase failure (raised exception, non-200 status, or a
200 body without a truthy `upload_url`) makes the AssemblyAI backend
return `None` having issued only the upload request — no submit, no
poll. -/
theorem assemblyai_upload_failure_short_circuits :
    ∀ (k : String) (uploadResp submitResp : Except String (Nat × Option String))
      (polls : Nat → Except String (Nat × PollBody)),
      k ≠ "" →
      ((∃ e, uploadResp = .error e) ∨
       (∃ st url, uploadResp = .ok (st, url) ∧ (st ≠ 200 ∨ truthy url = false))) →
      transcribeAssemblyai (some k) uploadResp submitResp polls = (none, [Ev.upload]) := by
  intro k ur sr polls hk hfail
  have hke : k.isEmpty = false := by
    rw [Bool.eq_false_iff]
    exact fun hke => hk ((String.isEmpty_iff k).mp hke)
  have hkt : truthy (some k) = true := by
    simp [truthy, hke]
  rcases hfail with ⟨e, he⟩ | ⟨st, url, hu, hcase⟩
  · simp [transcribeAssemblyai, hkt, he]
  · rcases hcase with hne | hf
    · simp [transcribeAssemblyai, hkt, hu, hne]
    · by_cases h200 : st = 200
      · subst h200
        simp [transcribeAssemblyai, hkt, hu, hf]
      · simp [transcribeAssemblyai, hkt, hu, h200]

/-- Witness for C3: an HTTP 500 upload response. -/
theorem assemblyai_upload_failure_short_circuits_witness :
    transcribeAssemblyai (some "KEY") (.ok (500, none)) (.ok (200, some "ID"))
      (fun _ => .ok (200, ⟨some "completed", "text"⟩)) = (none, [Ev.upload]) :=
  assemblyai_upload_failure_short_circuits "KEY" _ _ _ (by decide)
    (Or.inr ⟨500, none, rfl, Or.inl (by decide)⟩)

/-- C6: when no record has a truthy `message_text` or `transcription`
(including the empty list), both `analyze_messages` and `custom_analysis`
return the fixed "no messages" sentinel and never reach the
chat-completion call — the result is the sentinel for every conceivable
chat backend. -/
theorem no_usable_messages_sentinel :
    ∀ (msgs : List MsgRecord) (ty p : String),
      (∀ m ∈ msgs, usable m = false) →
      analyze_messages msgs ty = .noMessages ∧
      custom_analysis msgs p = .noMessages ∧
      (∀ chat, runAnalysis chat (analyze_messages msgs ty) = noMessagesText) ∧
      (∀ chat, runAnalysis chat (custom_analysis msgs p) = noMessagesText) := by
  intro msgs ty p h
  have hf : msgs.filter usable = [] := by
    rw [List.filter_eq_nil_iff]
    intro a ha
    simp [h a ha]
  have h1 : analyze_messages msgs ty = .noMessages := by
    simp only [analyze_messages, hf]
    rfl
  have h2 : custom_analysis msgs p = .noMessages := by
    simp only [custom_analysis, hf]
    rfl
  exact ⟨h1, h2, fun chat => by rw [h1]; rfl, fun chat => by rw [h2]; rfl⟩

/-- Witness for C6: records with only falsy text fields. -/
theorem no_usable_messages_sentinel_witness :
    analyze_messages
      [⟨some (some "2024-01-01"), some (some ""), none⟩, ⟨none, some none, some (some "")⟩]
      "summary" = .noMessages ∧
    custom_analysis
      [⟨some (some "2024-01-01"), some (some ""), none⟩, ⟨none, some none, some (some "")⟩]
      "что обсуждали?" = .noMessages :=
  ⟨(no_usable_messages_sentinel _ "summary" "что обсуждали?" (by decide)).1,
   (no_usable_messages_sentinel _ "summary" "что обсуждали?" (by decide)).2.1⟩

/-- C7: each of the four known `analysis_type` values selects its fixed
prompt template, any other value selects the summary template, and the
system prompt `analyze_messages` sends is always the selected one. -/
theorem analysis_type_prompt_selection :
    (∀ (msgs : List MsgRecord) (ty sp um : String),
      analyze_messages msgs ty = .call sp um → sp = prompts_get ty) ∧
    prompts_get "summary" = summaryPrompt ∧
    prompts_get "insights" = insightsPrompt ∧
    prompts_get "topics" = topicsPrompt ∧
    prompts_get "sentiment" = sentimentPrompt ∧
    (∀ ty, ty ≠ "summary" → ty ≠ "insights" → ty ≠ "topics" → ty ≠ "sentiment" →
      prompts_get ty = summaryPrompt) := by
  refine ⟨?_, rfl, rfl, rfl, rfl, ?_⟩
  · intro msgs ty sp um h
    simp only [analyze_messages] at h
    split at h
    · exact absurd h (by simp)
    · injection h with hsp hum
      exact hsp.symm
  · intro ty h1 h2 h3 h4
    simp [prompts_get, h1, h2, h3, h4]

/-- Witness for C7: a concrete call with `analysis_type = "topics"` and a
concrete unknown type. -/
theorem analysis_type_prompt_selection_witness :
    topicsPrompt = prompts_get "topics" ∧
    prompts_get "word_frequency" = summaryPrompt :=
  ⟨analysis_type_prompt_selection.1 [⟨none, some (some "привет"), none⟩] "topics"
      topicsPrompt ("Переписка:\n\n" ++ "[Unknown] привет") (by decide),
   analysis_type_prompt_selection.2.2.2.2.2 "word_frequency"
      (by decide) (by decide) (by decide) (by decide)⟩

end Tganalys
